import Mathlib

/-!
# Stake module (modules/stake/handler.go): shallow embedding

The transaction handlers of the bonding module are embedded as pure functions
over an explicit store.  The package-level variables of the source
(`periodUnbonding`, `coinDenom`, `periodCommHistory`) are threaded as a
`Globals` record.  A handler returns an `Outcome`: either the `abci.Result`
together with the store it leaves behind and the list of sub-transactions it
handed to `dispatch.DeliverTx`, or a Go run-time panic.  The per-block
processors return a `ProcOutcome` and `DeliverTx` a `DeliverOutcome` in the
same way; their two `for` loops carry fuel.  Library code that handler.go
calls (go-wire's decoder, `ValidateBasic`, `ValidatorsDiff`) is a parameter,
`Externals`.
-/

namespace Stake

/-! ## Decimal -/

/-- Modelled from the spec: the `Decimal` type of the module (its declaration is
not part of handler.go).  The spec describes an exact signed number with add,
subtract, multiply, divide, comparison and truncation-to-integer; it is
represented by a rational number. -/
structure Decimal where
  val : ℚ
  deriving DecidableEq

/-- Modelled from the spec: `NewDecimal(value, exp)`, the number `value × 10^exp`.
The reading of the second argument as a power-of-ten exponent is fixed by
handler.go itself: `inflation = NewDecimal(7, -2)` is commented
"inflation between (0 to 1)". -/
def NewDecimal (value : Int) (exp : Int) : Decimal :=
  ⟨(value : ℚ) * (10 : ℚ) ^ exp⟩

/-- Modelled from the spec: the Decimal constant zero. -/
def Zero : Decimal := ⟨0⟩

/-- Modelled from the spec: the Decimal constant one ("exchange rate ...
initialized to 1"). -/
def One : Decimal := ⟨1⟩

/-- Modelled from the spec: `d.LTE(e)`, comparison `d ≤ e`. -/
def Decimal.LTE (d e : Decimal) : Bool := decide (d.val ≤ e.val)

/-- Modelled from the spec: `d.LT(e)`, comparison `d < e`. -/
def Decimal.LT (d e : Decimal) : Bool := decide (d.val < e.val)

/-- Modelled from the spec: `d.Equal(e)`, numeric equality. -/
def Decimal.Equal (d e : Decimal) : Bool := decide (d.val = e.val)

/-- Modelled from the spec: `d.Plus(e)`. -/
def Decimal.Plus (d e : Decimal) : Decimal := ⟨d.val + e.val⟩

/-- Modelled from the spec: `d.Minus(e)`. -/
def Decimal.Minus (d e : Decimal) : Decimal := ⟨d.val - e.val⟩

/-- Modelled from the spec: `d.Mul(e)`. -/
def Decimal.Mul (d e : Decimal) : Decimal := ⟨d.val * e.val⟩

/-- Modelled from the spec: `d.Div(e)`, exact division.  Division by zero has no
result (`none`); the caller treats it as a run-time panic. -/
def Decimal.Div (d e : Decimal) : Option Decimal :=
  if e.val = 0 then none else some ⟨d.val / e.val⟩

/-! ## Actors, coins, sub-transactions, results -/

/-- The `sdk.Actor` of the SDK: chain id, application name and address bytes.
The Go zero value has empty strings and a nil address. -/
structure Actor where
  ChainID : String
  App : String
  Address : List Nat
  deriving DecidableEq

/-- The Go zero value of `sdk.Actor`. -/
def Actor.zero : Actor := ⟨"", "", []⟩

/-- The `coin.Coin` of the SDK: a denomination and an int64 amount. -/
structure Coin where
  Denom : String
  Amount : Int
  deriving DecidableEq

/-- Sub-transactions handed to the coin module through `dispatch.DeliverTx`:
`coin.NewSendOneTx(sender, receiver, coins)` and `coin.NewCreditTx(receiver, coins)`. -/
inductive CoinTx where
  | send (sender receiver : Actor) (coins : List Coin)
  | credit (receiver : Actor) (coins : List Coin)
  deriving DecidableEq

/-- Constructor `coin.NewSendOneTx`. -/
def NewSendOneTx (sender receiver : Actor) (coins : List Coin) : CoinTx :=
  CoinTx.send sender receiver coins

/-- The result codes of `abci.Result` that handler.go uses. -/
inductive CodeType where
  | OK
  | InternalError
  | BaseInsufficientFunds
  | BaseUnknownAddress
  deriving DecidableEq

/-- The `abci.Result`: a code and a log string (the data field is never set by
the handlers). -/
structure Result where
  Code : CodeType
  Log : String
  deriving DecidableEq

/-- The constant `abci.OK`. -/
def OK : Result := ⟨CodeType.OK, ""⟩

/-- The constant `abci.ErrInternalError`. -/
def ErrInternalError : Result := ⟨CodeType.InternalError, "Internal error"⟩

/-- The constant `abci.ErrBaseInsufficientFunds`. -/
def ErrBaseInsufficientFunds : Result :=
  ⟨CodeType.BaseInsufficientFunds, "Error (base) insufficient funds"⟩

/-- The constant `abci.ErrBaseUnknownAddress`. -/
def ErrBaseUnknownAddress : Result :=
  ⟨CodeType.BaseUnknownAddress, "Error (base) unknown address"⟩

/-- Method `Result.AppendLog`: same code, log extended after a semicolon. -/
def Result.AppendLog (res : Result) (log : String) : Result :=
  ⟨res.Code, res.Log ++ ";" ++ log⟩

/-- Method `Result.IsErr`: the code is not OK. -/
def Result.IsErr (res : Result) : Bool := decide (res.Code ≠ CodeType.OK)

/-! ## Ledger records and the store -/

/-- Modelled from the spec: `DelegateeBond` (declared outside handler.go), with the
fields handler.go reads and writes. -/
structure DelegateeBond where
  Delegatee : Actor
  Commission : Decimal
  ExchangeRate : Decimal
  TotalBondTokens : Decimal
  Account : Actor
  deriving DecidableEq

/-- Modelled from the spec: `DelegatorBond` (declared outside handler.go). -/
structure DelegatorBond where
  Delegatee : Actor
  BondTokens : Decimal
  deriving DecidableEq

/-- The base `QueueElem` embedded in both queue element kinds. -/
structure QueueElem where
  Delegatee : Actor
  HeightAtInit : Nat
  deriving DecidableEq

/-- Modelled from the spec: `QueueElemUnbond` (declared outside handler.go). -/
structure QueueElemUnbond where
  toQueueElem : QueueElem
  Account : Actor
  BondTokens : Decimal
  deriving DecidableEq

/-- Modelled from the spec: `QueueElemModComm` (declared outside handler.go). -/
structure QueueElemModComm where
  toQueueElem : QueueElem
  CommChange : Decimal
  deriving DecidableEq

/-- State of the coin module.  The stake handlers never read or write it; they
only pass it to the dispatcher.  Balances per account. -/
abbrev Ledger := List (Actor × List Coin)

/-- The key-value store as the stake module sees it: the delegatee-bond
collection, one delegator-bond collection per delegator account (an account
without an entry has the nil collection), the two persisted FIFO queues
(front of the queue is the head of the list), and the coin module's part. -/
structure Store where
  delegateeBonds : List DelegateeBond
  delegatorBonds : List (Actor × List DelegatorBond)
  queueUnbond : List QueueElemUnbond
  queueComm : List QueueElemModComm
  coin : Ledger
  deriving DecidableEq

/-- The package-level variables of handler.go. -/
structure Globals where
  periodUnbonding : Nat
  coinDenom : String
  periodCommHistory : Nat
  deriving DecidableEq

/-- The initial values of the package-level variables. -/
def Globals.initial : Globals := ⟨30, "atom", 28800⟩

/-- The `sdk.Context` as far as the handlers use it: the block height and the
actors returned by `ctx.GetPermissions("", auth.NameSigs)`. -/
structure Context where
  height : Nat
  sigs : List Actor
  deriving DecidableEq

/-- Method `ctx.GetPermissions("", auth.NameSigs)`: the signers of the transaction. -/
def Context.GetPermissions (ctx : Context) : List Actor := ctx.sigs

/-- The `sdk.Deliver` dispatcher: it runs a coin sub-transaction on the coin
module's state and either fails with an error text or yields the new state. -/
abbrev Deliver := Context → Ledger → CoinTx → Except String Ledger

/-- Modelled from the spec: `DelegateeBonds.Get(delegatee)`, lookup by exact
identity match, giving the index and the record, or nothing. -/
def DelegateeBonds.Get : List DelegateeBond → Actor → Option (Nat × DelegateeBond)
  | [], _ => none
  | b :: bs, d =>
    if b.Delegatee = d then some (0, b)
    else match DelegateeBonds.Get bs d with
      | none => none
      | some (i, r) => some (i + 1, r)

/-- Modelled from the spec: `DelegateeBonds.Remove(index)`. -/
def DelegateeBonds.Remove (bs : List DelegateeBond) (i : Nat) : List DelegateeBond :=
  bs.eraseIdx i

/-- Modelled from the spec: `DelegatorBonds.Get(delegatee)`, lookup by exact
identity match, giving the index and the record, or nothing. -/
def DelegatorBonds.Get : List DelegatorBond → Actor → Option (Nat × DelegatorBond)
  | [], _ => none
  | b :: bs, d =>
    if b.Delegatee = d then some (0, b)
    else match DelegatorBonds.Get bs d with
      | none => none
      | some (i, r) => some (i + 1, r)

/-- Lookup in the per-account part of the store. -/
def kvGet : List (Actor × List DelegatorBond) → Actor → Option (List DelegatorBond)
  | [], _ => none
  | (k, v) :: rest, a => if k = a then some v else kvGet rest a

/-- Write in the per-account part of the store: overwrite the entry of the
account, or add one. -/
def kvSet : List (Actor × List DelegatorBond) → Actor → List DelegatorBond →
    List (Actor × List DelegatorBond)
  | [], a, v => [(a, v)]
  | (k, w) :: rest, a, v => if k = a then (k, v) :: rest else (k, w) :: kvSet rest a v

/-- Delete in the per-account part of the store. -/
def kvDel : List (Actor × List DelegatorBond) → Actor → List (Actor × List DelegatorBond)
  | [], _ => []
  | (k, w) :: rest, a => if k = a then kvDel rest a else (k, w) :: kvDel rest a

/-- Modelled from the spec: `getDelegateeBonds(store)`.  The records of the store
are well-formed, so decoding does not fail. -/
def getDelegateeBonds (store : Store) : Except String (List DelegateeBond) :=
  Except.ok store.delegateeBonds

/-- Modelled from the spec: `setDelegateeBonds(store, bonds)`. -/
def setDelegateeBonds (store : Store) (bonds : List DelegateeBond) : Store :=
  { store with delegateeBonds := bonds }

/-- Modelled from the spec: `getDelegatorBonds(store, account)`; the nil
collection (`none`) when the account has no entry. -/
def getDelegatorBonds (store : Store) (account : Actor) :
    Except String (Option (List DelegatorBond)) :=
  Except.ok (kvGet store.delegatorBonds account)

/-- Modelled from the spec: `setDelegatorBonds(store, account, bonds)`. -/
def setDelegatorBonds (store : Store) (account : Actor) (bonds : List DelegatorBond) : Store :=
  { store with delegatorBonds := kvSet store.delegatorBonds account bonds }

/-- Modelled from the spec: `removeDelegatorBonds(store, account)`. -/
def removeDelegatorBonds (store : Store) (account : Actor) : Store :=
  { store with delegatorBonds := kvDel store.delegatorBonds account }

/-- Go `len` of a possibly nil slice. -/
def sliceLen {α : Type} : Option (List α) → Nat
  | none => 0
  | some l => l.length

/-! ## Transactions -/

/-- The transaction `TxBond`. -/
structure TxBond where
  Delegatee : Actor
  Amount : Coin
  deriving DecidableEq

/-- The transaction `TxUnbond`. -/
structure TxUnbond where
  Delegatee : Actor
  Amount : Coin
  deriving DecidableEq

/-- The transaction `TxNominate`. -/
structure TxNominate where
  Nominee : Actor
  Amount : Coin
  Commission : Decimal
  deriving DecidableEq

/-- The transaction `TxModComm`. -/
structure TxModComm where
  Delegatee : Actor
  Commission : Decimal
  deriving DecidableEq

/-- What a handler call produces: the returned `abci.Result`, the store left
behind and the sub-transactions passed to `dispatch.DeliverTx` (in order), or a
Go run-time panic. -/
inductive Outcome where
  | ret (res : Result) (store : Store) (sent : List CoinTx)
  | panic (msg : String)
  deriving DecidableEq

/-! ## Transaction handlers -/

/-- The handler `runTxBond` (handler.go lines 177-238). -/
def runTxBond (g : Globals) (ctx : Context) (store : Store) (tx : TxBond)
    (dispatch : Deliver) : Outcome :=
  -- Get amount of coins to bond
  let bondCoin := tx.Amount
  let bondAmt := NewDecimal bondCoin.Amount 1
  if bondCoin.Denom ≠ g.coinDenom then
    Outcome.ret (ErrInternalError.AppendLog "Invalid coin denomination") store []
  else if bondAmt.LTE Zero then
    Outcome.ret (ErrInternalError.AppendLog "Amount must be > 0") store []
  else
  -- Get the delegatee bond account
  match getDelegateeBonds store with
  | Except.error err => Outcome.ret (ErrInternalError.AppendLog err) store []
  | Except.ok delegateeBonds =>
  match DelegateeBonds.Get delegateeBonds tx.Delegatee with
  | none =>
    Outcome.ret (ErrInternalError.AppendLog "Cannot bond to non-nominated account") store []
  | some (_, delegateeBond) =>
  -- Move coins from the delegator account to the delegatee lock account
  let senders := ctx.GetPermissions
  if senders.length ≠ 1 then
    Outcome.ret (ErrInternalError.AppendLog "Missing signature") store []
  else
  match senders with
  | [] => Outcome.panic "index out of range"
  | sender :: _ =>
  let send := NewSendOneTx sender delegateeBond.Account [bondCoin]
  -- If the deduction fails (too high), abort the command
  match dispatch ctx store.coin send with
  | Except.error err => Outcome.ret (ErrInternalError.AppendLog err) store [send]
  | Except.ok coin1 =>
  let store1 : Store := { store with coin := coin1 }
  -- Get or create delegator bonds
  match getDelegatorBonds store1 sender with
  | Except.error err => Outcome.ret (ErrInternalError.AppendLog err) store1 [send]
  | Except.ok loaded =>
  let delegatorBonds : List DelegatorBond :=
    if sliceLen loaded ≠ 1 then [{ Delegatee := tx.Delegatee, BondTokens := Zero }]
    else loaded.getD []
  -- Calculate amount of bond tokens to create, based on exchange rate
  match bondAmt.Div delegateeBond.ExchangeRate with
  | none => Outcome.panic "decimal division by 0"
  | some bondTokens =>
  match delegatorBonds with
  | [] => Outcome.panic "index out of range"
  | first :: others =>
  let delegatorBonds1 : List DelegatorBond :=
    { first with BondTokens := first.BondTokens.Plus bondTokens } :: others
  -- Save to store
  let store2 := setDelegateeBonds store1 delegateeBonds
  let store3 := setDelegatorBonds store2 sender delegatorBonds1
  Outcome.ret OK store3 [send]

/-- The handler `runTxUnbond` (handler.go lines 240-314).  The pointers returned
by the two `Get` calls point into the collections, so an assignment through
them is an update at the found index. -/
def runTxUnbond (ctx : Context) (store : Store) (tx : TxUnbond) (height : Nat) : Outcome :=
  let bondAmt := NewDecimal tx.Amount.Amount 1
  if bondAmt.LTE Zero then
    Outcome.ret (ErrInternalError.AppendLog "Unbond amount must be > 0") store []
  else
  let senders := ctx.GetPermissions
  if senders.length ≠ 0 then
    Outcome.ret (ErrInternalError.AppendLog "Missing signature") store []
  else
  match senders with
  | [] => Outcome.panic "index out of range"
  | sender :: _ =>
  match getDelegatorBonds store sender with
  | Except.error err => Outcome.ret (ErrInternalError.AppendLog err) store []
  | Except.ok none =>
    Outcome.ret (ErrBaseUnknownAddress.AppendLog
      "No bond account for this (address, validator) pair") store []
  | Except.ok (some delegatorBonds) =>
  match DelegatorBonds.Get delegatorBonds tx.Delegatee with
  | none =>
    Outcome.ret (ErrInternalError.AppendLog "Delegator does not contain delegatee bond") store []
  | some (dIndex, delegatorBond) =>
  -- subtract bond tokens from bond account
  if delegatorBond.BondTokens.LT bondAmt then
    Outcome.ret (ErrBaseInsufficientFunds.AppendLog "Insufficient bond tokens") store []
  else
  let delegatorBond1 : DelegatorBond :=
    { delegatorBond with BondTokens := delegatorBond.BondTokens.Minus bondAmt }
  let delegatorBonds1 := delegatorBonds.set dIndex delegatorBond1
  let store1 :=
    if delegatorBond1.BondTokens.Equal Zero then removeDelegatorBonds store sender
    else setDelegatorBonds store sender delegatorBonds1
  -- subtract tokens from bond value
  match getDelegateeBonds store1 with
  | Except.error err => Outcome.ret (ErrInternalError.AppendLog err) store1 []
  | Except.ok delegateeBonds =>
  -- the nil test of the source is on delegatorBond, which is not nil here
  match DelegateeBonds.Get delegateeBonds tx.Delegatee with
  | none => Outcome.panic "nil pointer dereference"
  | some (bvIndex, delegateeBond) =>
  let delegateeBond1 : DelegateeBond :=
    { delegateeBond with TotalBondTokens := delegateeBond.TotalBondTokens.Minus bondAmt }
  let delegateeBonds1 := delegateeBonds.set bvIndex delegateeBond1
  let delegateeBonds2 :=
    if delegateeBond1.TotalBondTokens.Equal Zero then DelegateeBonds.Remove delegateeBonds1 bvIndex
    else delegateeBonds1
  let store2 := setDelegateeBonds store1 delegateeBonds2
  -- add unbond record to queue
  let queueElem : QueueElemUnbond :=
    { toQueueElem := { Delegatee := tx.Delegatee, HeightAtInit := height }
      Account := sender
      BondTokens := bondAmt }
  Outcome.ret OK { store2 with queueUnbond := store2.queueUnbond ++ [queueElem] } []

/-- The handler `runTxNominate` (handler.go lines 316-346).  The `Account` and
`TotalBondTokens` fields of the new bond are not set by the source and keep
their Go zero values. -/
def runTxNominate (ctx : Context) (store : Store) (tx : TxNominate)
    (dispatch : Deliver) : Outcome :=
  -- Create bond value object
  let delegateeBond : DelegateeBond :=
    { Delegatee := tx.Nominee
      Commission := tx.Commission
      ExchangeRate := One
      TotalBondTokens := Zero
      Account := Actor.zero }
  -- Bond the tokens
  let senders := ctx.GetPermissions
  match senders with
  | [] => Outcome.ret (ErrInternalError.AppendLog "Missing signature") store []
  | sender :: _ =>
  let send := NewSendOneTx sender delegateeBond.Account [tx.Amount]
  match dispatch ctx store.coin send with
  | Except.error err => Outcome.ret (ErrInternalError.AppendLog err) store [send]
  | Except.ok coin1 =>
  let store1 : Store := { store with coin := coin1 }
  -- Append and store
  match getDelegateeBonds store1 with
  | Except.error err => Outcome.ret (ErrInternalError.AppendLog err) store1 [send]
  | Except.ok delegateeBonds =>
  let delegateeBonds1 := delegateeBonds ++ [delegateeBond]
  Outcome.ret OK (setDelegateeBonds store1 delegateeBonds1) [send]

/-- The handler `runTxModComm` (handler.go lines 349-385).  The assignment
`delegateeBonds[record].Commission = tx.Commission` is an update of the
collection at index `record`. -/
def runTxModComm (ctx : Context) (store : Store) (tx : TxModComm) (height : Nat) : Outcome :=
  -- Retrieve the record to modify
  match getDelegateeBonds store with
  | Except.error err => Outcome.ret (ErrInternalError.AppendLog err) store []
  | Except.ok delegateeBonds =>
  match DelegateeBonds.Get delegateeBonds tx.Delegatee with
  | none =>
    Outcome.ret (ErrInternalError.AppendLog "Delegatee does not exist for that address") store []
  | some (record, _) =>
  -- Retrieve, Modify and save the commission
  match delegateeBonds[record]? with
  | none => Outcome.panic "index out of range"
  | some old =>
  let delegateeBonds1 := delegateeBonds.set record { old with Commission := tx.Commission }
  let store1 := setDelegateeBonds store delegateeBonds1
  -- Add the commission modification the queue
  let queueElem : QueueElemModComm :=
    { toQueueElem := { Delegatee := tx.Delegatee, HeightAtInit := height }
      CommChange := tx.Commission }
  Outcome.ret OK { store1 with queueComm := store1.queueComm ++ [queueElem] } []

/-! ## Queues, the wire decoder and the per-block processors -/

/-- Modelled from the spec: `queue.Peek()`, the front element of the persisted
FIFO queue, nil when the queue is empty. -/
def queuePeek {α : Type} (q : List α) : Option α := q.head?

/-- Modelled from the spec: `queue.Pop()`, removal of the front element. -/
def queuePop {α : Type} (q : List α) : List α := q.tail

/-- Modelled from the spec: `d.IntPart()`, truncation to the integer part. -/
def Decimal.IntPart (d : Decimal) : Int := d.val.num.tdiv d.val.den

/-- What a caller observes of `wire.ReadBinaryBytes(bytes, target)` when, as at
lines 415, 442, 461 and 471 of handler.go, `target` is the struct variable
itself and not its address: Go passes the struct by value, the callee works on
a copy, and the variable of the caller keeps the value it had.  What is left
is the returned error (nil for `ok`) or a panic of the library. -/
inductive ReadResult where
  | ok
  | err (e : String)
  | panic (msg : String)
  deriving DecidableEq

/-- A Go `error` value: an `abci.Result` returned as error, or an error text. -/
inductive GoError where
  | abci (res : Result)
  | text (e : String)
  deriving DecidableEq

/-- The transaction payloads `tx.Unwrap()` can give: the four kinds of the type
switch in `DeliverTx`, or a payload of another type. -/
inductive Tx where
  | bond (tx : TxBond)
  | unbond (tx : TxUnbond)
  | nominate (tx : TxNominate)
  | modComm (tx : TxModComm)
  | other
  deriving DecidableEq

/-- Code that handler.go calls and that lies outside it, taken as parameters:
the answer of go-wire's `ReadBinaryBytes` on the front bytes of either queue
(nil bytes for an empty queue), the `ValidateBasic` of a transaction (nil or
an error text), and `ValidatorsDiff(nil)` of a delegatee-bond collection. -/
structure Externals where
  readUnbond : Option QueueElemUnbond → ReadResult
  readModComm : Option QueueElemModComm → ReadResult
  ValidateBasic : Tx → Option String
  ValidatorsDiff : List DelegateeBond → List (Actor × Int)

/-- What a processor call produces: the returned error (`none` for nil), the
store left behind and the sub-transactions requested, in order; or a panic,
with the store and the requests at that point. -/
inductive ProcOutcome where
  | ret (err : Option GoError) (store : Store) (sent : List CoinTx)
  | panic (msg : String) (store : Store) (sent : List CoinTx)
  deriving DecidableEq

/-- The store a processor call leaves behind. -/
def ProcOutcome.store : ProcOutcome → Store
  | ProcOutcome.ret _ s _ => s
  | ProcOutcome.panic _ s _ => s

/-- The sub-transactions a processor call requested. -/
def ProcOutcome.sent : ProcOutcome → List CoinTx
  | ProcOutcome.ret _ _ l => l
  | ProcOutcome.panic _ _ l => l

/-- Subtraction of two `uint64` values, wrapping around. -/
def subU64 (a b : Nat) : Nat := (a % 2 ^ 64 + 2 ^ 64 - b % 2 ^ 64) % 2 ^ 64

/-- The Go zero value of `QueueElemUnbond` (`var unbond QueueElemUnbond`). -/
def QueueElemUnbond.zero : QueueElemUnbond := ⟨⟨Actor.zero, 0⟩, Actor.zero, ⟨0⟩⟩

/-- The Go zero value of `QueueElemModComm` (`var commission QueueElemModComm`). -/
def QueueElemModComm.zero : QueueElemModComm := ⟨⟨Actor.zero, 0⟩, ⟨0⟩⟩

/-- The closure `sendCoins(sender, receiver, amount)` given to
`processQueueUnbondAbstracted`, acting on the coin module's state. -/
abbrev SendCoins := Ledger → Actor → Actor → List Coin → Except String Ledger

/-- The closure `creditAcc(receiver, amount)` given to
`processValidatorRewardsAbstration`, acting on the coin module's state. -/
abbrev CreditAcc := Ledger → Actor → List Coin → Except String Ledger

/-- Constructor `coin.NewCreditTx`. -/
def NewCreditTx (receiver : Actor) (coins : List Coin) : CoinTx :=
  CoinTx.credit receiver coins

/-- The `for` loop of `processQueueUnbondAbstracted` (handler.go lines 420-446),
with the variable `unbond` as loop state.  Each iteration uses one unit of
fuel; `none` means the fuel ran out. -/
def unbondLoop (g : Globals) (ext : Externals) (sendCoins : SendCoins) (height : Nat) :
    Nat → QueueElemUnbond → Store → List CoinTx → Option ProcOutcome
  | 0, unbond, store, sent =>
    if unbond.toQueueElem.Delegatee.Address ≠ [] ∧
        subU64 height unbond.toQueueElem.HeightAtInit > g.periodUnbonding then none
    else some (ProcOutcome.ret none store sent)
  | fuel + 1, unbond, store, sent =>
    if unbond.toQueueElem.Delegatee.Address ≠ [] ∧
        subU64 height unbond.toQueueElem.HeightAtInit > g.periodUnbonding then
      -- queue.Pop()
      let store1 : Store := { store with queueUnbond := queuePop store.queueUnbond }
      -- send unbonded coins to queue account, based on current exchange rate
      match getDelegateeBonds store1 with
      | Except.error err => some (ProcOutcome.ret (some (GoError.text err)) store1 sent)
      | Except.ok delegateeBonds =>
      match DelegateeBonds.Get delegateeBonds unbond.toQueueElem.Delegatee with
      | none =>
        some (ProcOutcome.ret
          (some (GoError.abci
            (ErrInternalError.AppendLog "Delegatee does not exist for that address")))
          store1 sent)
      | some (_, delegateeBond) =>
      let coinAmount := unbond.BondTokens.Mul delegateeBond.ExchangeRate
      let payout : List Coin := [⟨g.coinDenom, coinAmount.IntPart⟩]
      let sent1 := sent ++ [NewSendOneTx delegateeBond.Account unbond.Account payout]
      match sendCoins store1.coin delegateeBond.Account unbond.Account payout with
      | Except.error err => some (ProcOutcome.ret (some (GoError.text err)) store1 sent1)
      | Except.ok coin1 =>
      let store2 : Store := { store1 with coin := coin1 }
      -- get next unbond record
      match ext.readUnbond (queuePeek store2.queueUnbond) with
      | ReadResult.panic msg => some (ProcOutcome.panic msg store2 sent1)
      | ReadResult.err e => some (ProcOutcome.ret (some (GoError.text e)) store2 sent1)
      | ReadResult.ok => unbondLoop g ext sendCoins height fuel unbond store2 sent1
    else some (ProcOutcome.ret none store sent)

/-- The processor `processQueueUnbondAbstracted` (handler.go lines 405-449). -/
def processQueueUnbondAbstracted (g : Globals) (ext : Externals) (sendCoins : SendCoins)
    (store : Store) (height : Nat) (fuel : Nat) : Option ProcOutcome :=
  -- Get the peek unbond record from the queue
  let unbond : QueueElemUnbond := QueueElemUnbond.zero
  let unbondBytes := queuePeek store.queueUnbond
  match ext.readUnbond unbondBytes with
  | ReadResult.panic msg => some (ProcOutcome.panic msg store [])
  | ReadResult.err e => some (ProcOutcome.ret (some (GoError.text e)) store [])
  | ReadResult.ok => unbondLoop g ext sendCoins height fuel unbond store []

/-- The processor `processQueueUnbond` (handler.go lines 391-403): the closure
`sendCoins` dispatches a `coin.NewSendOneTx`. -/
def processQueueUnbond (g : Globals) (ext : Externals) (ctx : Context) (store : Store)
    (height : Nat) (dispatch : Deliver) (fuel : Nat) : Option ProcOutcome :=
  let sendCoins : SendCoins := fun l sender receiver amount =>
    dispatch ctx l (NewSendOneTx sender receiver amount)
  processQueueUnbondAbstracted g ext sendCoins store height fuel

/-- The `for` loop of `processQueueCommHistory` (handler.go lines 466-475), with
the variable `commission` as loop state.  Each iteration uses one unit of
fuel; `none` means the fuel ran out. -/
def commLoop (g : Globals) (ext : Externals) (height : Nat) :
    Nat → QueueElemModComm → Store → Option ProcOutcome
  | 0, commission, store =>
    if commission.toQueueElem.Delegatee.Address ≠ [] ∧
        subU64 height commission.toQueueElem.HeightAtInit > g.periodCommHistory then none
    else some (ProcOutcome.ret none store [])
  | fuel + 1, commission, store =>
    if commission.toQueueElem.Delegatee.Address ≠ [] ∧
        subU64 height commission.toQueueElem.HeightAtInit > g.periodCommHistory then
      -- queue.Pop()
      let store1 : Store := { store with queueComm := queuePop store.queueComm }
      -- check the next record in the queue record
      match ext.readModComm (queuePeek store1.queueComm) with
      | ReadResult.panic msg => some (ProcOutcome.panic msg store1 [])
      | ReadResult.err e => some (ProcOutcome.ret (some (GoError.text e)) store1 [])
      | ReadResult.ok => commLoop g ext height fuel commission store1
    else some (ProcOutcome.ret none store [])

/-- The processor `processQueueCommHistory` (handler.go lines 452-477). -/
def processQueueCommHistory (g : Globals) (ext : Externals) (store : Store) (height : Nat)
    (fuel : Nat) : Option ProcOutcome :=
  -- Get the peek record from the queue
  let commission : QueueElemModComm := QueueElemModComm.zero
  let bytes := queuePeek store.queueComm
  match ext.readModComm bytes with
  | ReadResult.panic msg => some (ProcOutcome.panic msg store [])
  | ReadResult.err e => some (ProcOutcome.ret (some (GoError.text e)) store [])
  | ReadResult.ok => commLoop g ext height fuel commission store

/-- Modelled from the spec: `DelegateeBonds.ValidatorsActors()`, "list of
validator accounts": the escrow account of every delegatee, in collection order. -/
def ValidatorsActors (bonds : List DelegateeBond) : List Actor :=
  bonds.map (fun b => b.Account)

/-- The `range` loop of `processValidatorRewardsAbstration` (handler.go lines
503-511). -/
def rewardLoop (creditAcc : CreditAcc) : List Actor → Store → List CoinTx → ProcOutcome
  | [], store, sent => ProcOutcome.ret none store sent
  | account :: rest, store, sent =>
    let credit : List Coin := [⟨"atom", 10⟩]
    let sent1 := sent ++ [NewCreditTx account credit]
    match creditAcc store.coin account credit with
    | Except.error err => ProcOutcome.ret (some (GoError.text err)) store sent1
    | Except.ok coin1 => rewardLoop creditAcc rest { store with coin := coin1 } sent1

/-- The processor `processValidatorRewardsAbstration` (handler.go lines 494-513).
The parameter `height` is not used by the source. -/
def processValidatorRewardsAbstration (creditAcc : CreditAcc) (store : Store)
    (height : Nat) : ProcOutcome :=
  -- Retrieve the list of validators
  match getDelegateeBonds store with
  | Except.error err => ProcOutcome.ret (some (GoError.text err)) store []
  | Except.ok delegateeBonds =>
  let validatorAccounts := ValidatorsActors delegateeBonds
  rewardLoop creditAcc validatorAccounts store []

/-- The processor `processValidatorRewards` (handler.go lines 479-491): the
closure `creditAcc` dispatches a `coin.NewCreditTx`. -/
def processValidatorRewards (ctx : Context) (store : Store) (height : Nat)
    (dispatch : Deliver) : ProcOutcome :=
  let creditAcc : CreditAcc := fun l receiver amount =>
    dispatch ctx l (NewCreditTx receiver amount)
  processValidatorRewardsAbstration creditAcc store height

/-! ## DeliverTx and InitState -/

/-- Method `ctx.BlockHeight()`. -/
def Context.BlockHeight (ctx : Context) : Nat := ctx.height

/-- The `sdk.DeliverResult` as `DeliverTx` fills it: the log and the validator
diff (`Data` is copied from a result whose data is never set, `GasUsed` is 0).
It has no result code. -/
structure DeliverResult where
  Log : String
  Diff : List (Actor × Int)
  deriving DecidableEq

/-- The Go zero value of `sdk.DeliverResult`. -/
def DeliverResult.zero : DeliverResult := ⟨"", []⟩

/-- What a `DeliverTx` call produces: the pair `(res, err)` it returns (`none`
for a nil error), the store left behind and the sub-transactions dispatched;
or a panic. -/
inductive DeliverOutcome where
  | ret (res : DeliverResult) (err : Option GoError) (store : Store) (sent : List CoinTx)
  | panic (msg : String)
  deriving DecidableEq

/-- The function `checkTx` (handler.go lines 118-121). -/
def checkTx (ext : Externals) (ctx : Context) (tx : Tx) : Option String :=
  ext.ValidateBasic tx

/-- The method `Handler.DeliverTx` (handler.go lines 124-173).  `none` means that
a queue loop ran out of fuel. -/
def DeliverTx (g : Globals) (ext : Externals) (ctx : Context) (store : Store) (tx : Tx)
    (dispatch : Deliver) (fuel : Nat) : Option DeliverOutcome :=
  match checkTx ext ctx tx with
  | some e => some (DeliverOutcome.ret DeliverResult.zero (some (GoError.text e)) store [])
  | none =>
  -- start by processing the unbonding queue
  let height := ctx.BlockHeight
  match processQueueUnbond g ext ctx store height dispatch fuel with
  | none => none
  | some (ProcOutcome.panic msg _ _) => some (DeliverOutcome.panic msg)
  | some (ProcOutcome.ret (some e) store1 sent1) =>
    some (DeliverOutcome.ret DeliverResult.zero (some e) store1 sent1)
  | some (ProcOutcome.ret none store1 sent1) =>
  match processQueueCommHistory g ext store1 height fuel with
  | none => none
  | some (ProcOutcome.panic msg _ _) => some (DeliverOutcome.panic msg)
  | some (ProcOutcome.ret (some e) store2 sent2) =>
    some (DeliverOutcome.ret DeliverResult.zero (some e) store2 (sent1 ++ sent2))
  | some (ProcOutcome.ret none store2 sent2) =>
  match processValidatorRewards ctx store2 height dispatch with
  | ProcOutcome.panic msg _ _ => some (DeliverOutcome.panic msg)
  | ProcOutcome.ret (some e) store3 sent3 =>
    some (DeliverOutcome.ret DeliverResult.zero (some e) store3 (sent1 ++ sent2 ++ sent3))
  | ProcOutcome.ret none store3 sent3 =>
  -- now actually run the transaction
  let handled : Outcome :=
    match tx with
    | Tx.bond txType => runTxBond g ctx store3 txType dispatch
    | Tx.unbond txType => runTxUnbond ctx store3 txType height
    | Tx.nominate txType => runTxNominate ctx store3 txType dispatch
    | Tx.modComm txType => runTxModComm ctx store3 txType height
    | Tx.other => Outcome.ret ⟨CodeType.OK, ""⟩ store3 []
  match handled with
  | Outcome.panic msg => some (DeliverOutcome.panic msg)
  | Outcome.ret abciRes store4 sent4 =>
  -- determine the validator set changes
  match getDelegateeBonds store4 with
  | Except.error e =>
    some (DeliverOutcome.ret DeliverResult.zero (some (GoError.text e)) store4
      (sent1 ++ sent2 ++ sent3 ++ sent4))
  | Except.ok delegateeBonds =>
    some (DeliverOutcome.ret
      { Log := abciRes.Log, Diff := ext.ValidatorsDiff delegateeBonds } none store4
      (sent1 ++ sent2 ++ sent3 ++ sent4))

/-- The constant `name` of the package. -/
def name : String := "stake"

/-- The two causes of a `*strconv.NumError`: `strconv.ErrSyntax` and
`strconv.ErrRange`. -/
inductive NumCause where
  | ErrSyntax
  | ErrRange
  deriving DecidableEq

/-- The `*strconv.NumError` that `strconv.Atoi` returns: the failing function,
the input and the cause.  Its `Error()` text is not rendered. -/
structure NumError where
  Func : String
  Num : String
  Err : NumCause
  deriving DecidableEq

/-- The errors `Handler.InitState` returns: `errors.ErrUnknownModule(module)`,
`errors.ErrUnknownKey(key)`, or `fmt.Errorf(format, err.Error())` with the
format string and the `*NumError` whose text fills it. -/
inductive InitError where
  | unknownModule (m : String)
  | unknownKey (key : String)
  | errorf (format : String) (err : NumError)
  deriving DecidableEq

/-- Go's `strconv.Atoi` on the 64-bit `int`: an optional sign followed by decimal
digits, in the int64 range; otherwise a `*NumError`. -/
def Atoi (s : String) : Except NumError Int :=
  let digits : List Char :=
    match s.toList with
    | '-' :: r => r
    | '+' :: r => r
    | r => r
  let neg : Bool := decide (s.toList.head? = some '-')
  if digits = [] ∨ digits.all Char.isDigit = false then
    Except.error ⟨"Atoi", s, NumCause.ErrSyntax⟩
  else
    let n : Nat := digits.foldl (fun a c => 10 * a + (c.toNat - 48)) 0
    let v : Int := if neg then -(n : Int) else (n : Int)
    if v < -(2 ^ 63) ∨ 2 ^ 63 - 1 < v then
      Except.error ⟨"Atoi", s, NumCause.ErrRange⟩
    else Except.ok v

/-- The conversion `uint64(period)` of an `int`. -/
def toUint64 (v : Int) : Nat := (v % 2 ^ 64).toNat

/-- The method `Handler.InitState` (handler.go lines 86-109), on the package
variables.  It returns the variables it leaves and the error (`none` for nil);
the returned log is always empty.  The `switch` has no `return` on its
successful branches, so control reaches the last statement at line 108. -/
def InitState (g : Globals) (module key value : String) : Globals × Option InitError :=
  if module ≠ name then (g, some (InitError.unknownModule module))
  else
    let afterSwitch : Except InitError Globals :=
      if key = "unbond_period" then
        match Atoi value with
        | Except.error err =>
          Except.error (InitError.errorf "unbond period must be int, Error: %v" err)
        | Except.ok period => Except.ok { g with periodUnbonding := toUint64 period }
      else if key = "modcomm_period" then
        match Atoi value with
        | Except.error err =>
          Except.error (InitError.errorf "modcomm period must be int, Error: %v" err)
        | Except.ok period => Except.ok { g with periodCommHistory := toUint64 period }
      else if key = "bond_coin" then Except.ok { g with coinDenom := value }
      else Except.ok g
    match afterSwitch with
    | Except.error e => (g, some e)
    | Except.ok g1 => (g1, some (InitError.unknownKey key))

/-! ## Observations used in the statements -/

/-- The bond tokens an account holds for a delegatee according to the store:
the `BondTokens` of the record found by `Get` in the account's collection,
zero when the account has no collection or no such record. -/
def holding (store : Store) (account delegatee : Actor) : Decimal :=
  match kvGet store.delegatorBonds account with
  | none => Zero
  | some bonds =>
    match DelegatorBonds.Get bonds delegatee with
    | none => Zero
    | some (_, b) => b.BondTokens

/-- The signer's DelegatorBond for a delegatee, when there is one. -/
def bondOf (store : Store) (account delegatee : Actor) : Option DelegatorBond :=
  match kvGet store.delegatorBonds account with
  | none => none
  | some bonds => (DelegatorBonds.Get bonds delegatee).map Prod.snd

/-- Sum of the bond tokens held for a delegatee over all delegator collections
of the store. -/
def heldFor (store : Store) (delegatee : Actor) : ℚ :=
  (store.delegatorBonds.map (fun kv =>
    ((kv.2.filter (fun b => decide (b.Delegatee = delegatee))).map
      (fun b => b.BondTokens.val)).sum)).sum

/-- The `TotalBondTokens` of a delegatee in the store, when the delegatee is in
the collection. -/
def totalOf (store : Store) (delegatee : Actor) : Option Decimal :=
  (DelegateeBonds.Get store.delegateeBonds delegatee).map (fun r => r.2.TotalBondTokens)

/-- A dispatcher whose sub-transactions all succeed and leave the coin state as it is. -/
def dispatchOk : Deliver := fun _ l _ => Except.ok l

/-- A dispatcher whose sub-transactions all fail. -/
def dispatchFail : Deliver := fun _ _ _ => Except.error "insufficient funds"

/-- Whether a handler call returned `abci.OK` (a panic did not). -/
def Outcome.isOK : Outcome → Bool
  | Outcome.ret res _ _ => decide (res.Code = CodeType.OK)
  | Outcome.panic _ => false

/-! ## Concrete inputs used to evaluate the handlers -/

/-- A delegatee identity. -/
def delegateeX : Actor := ⟨"", "stake", [1]⟩

/-- A second delegatee identity. -/
def delegateeY : Actor := ⟨"", "stake", [2]⟩

/-- A third delegatee identity. -/
def delegateeZ : Actor := ⟨"", "stake", [3]⟩

/-- A delegator account. -/
def delegatorD : Actor := ⟨"", "sigs", [7]⟩

/-- A second account. -/
def delegatorE : Actor := ⟨"", "sigs", [8]⟩

/-- The record `runTxNominate` appends for a nominee with commission 0.1, with
the given total of bond tokens. -/
def bondRec (nominee : Actor) (total : ℚ) : DelegateeBond :=
  { Delegatee := nominee
    Commission := ⟨1 / 10⟩
    ExchangeRate := One
    TotalBondTokens := ⟨total⟩
    Account := Actor.zero }

/-- The store after `Nominate(X)`: one delegatee, no delegator bonds, empty queues. -/
def storeX : Store := ⟨[bondRec delegateeX 0], [], [], [], []⟩

/-- A store in which D holds 100 bond tokens for Y and nothing for X; X and Y
are both nominated. -/
def storeDY : Store :=
  ⟨[bondRec delegateeX 0, bondRec delegateeY 100],
   [(delegatorD, [⟨delegateeY, ⟨100⟩⟩])], [], [], []⟩

/-- A store in which D holds 100 bond tokens for Y and 50 for Z; X, Y and Z are
nominated. -/
def storeDYZ : Store :=
  ⟨[bondRec delegateeX 0, bondRec delegateeY 100, bondRec delegateeZ 50],
   [(delegatorD, [⟨delegateeY, ⟨100⟩⟩, ⟨delegateeZ, ⟨50⟩⟩])], [], [], []⟩

/-- A store in which D holds 50 bond tokens for X and 70 for Y, and these are the
only bond tokens outstanding for X and Y. -/
def storeDXY : Store :=
  ⟨[bondRec delegateeX 50, bondRec delegateeY 70],
   [(delegatorD, [⟨delegateeX, ⟨50⟩⟩, ⟨delegateeY, ⟨70⟩⟩])], [], [], []⟩

/-- The empty store. -/
def storeEmpty : Store := ⟨[], [], [], [], []⟩

/-- A context at height 100 signed by D alone. -/
def ctxD : Context := ⟨100, [delegatorD]⟩

/-- A context at height 100 signed by E alone. -/
def ctxE : Context := ⟨100, [delegatorE]⟩

/-- A context at height 100 without signer. -/
def ctxNone : Context := ⟨100, []⟩

/-- The transaction Bond(X, 500 atom). -/
def txBondX500 : TxBond := ⟨delegateeX, ⟨"atom", 500⟩⟩

/-- Externals whose `ReadBinaryBytes` returns nil and whose `ValidateBasic`
accepts every transaction; the validator diff is left empty. -/
def extNil : Externals :=
  ⟨fun _ => ReadResult.ok, fun _ => ReadResult.ok, fun _ => none, fun _ => []⟩

/-- Externals whose `ReadBinaryBytes` panics on a target that is not a pointer. -/
def extPanic : Externals :=
  ⟨fun _ => ReadResult.panic "ReadBinaryPtr expects o to be a pointer",
   fun _ => ReadResult.panic "ReadBinaryPtr expects o to be a pointer",
   fun _ => none, fun _ => []⟩

/-- A `sendCoins` closure that always succeeds. -/
def sendOk : SendCoins := fun l _ _ _ => Except.ok l

/-- A `creditAcc` closure that always succeeds and books the credit in the coin state. -/
def creditBook : CreditAcc := fun l receiver amount => Except.ok (l ++ [(receiver, amount)])

/-- A dispatcher that always succeeds and books every credit in the coin state. -/
def dispatchBook : Deliver := fun _ l tx =>
  match tx with
  | CoinTx.credit receiver amount => Except.ok (l ++ [(receiver, amount)])
  | CoinTx.send _ _ _ => Except.ok l

/-- A store with X nominated at exchange rate 1 and one unbond request in the
queue: 500 bond tokens of D for X, enqueued at height 100. -/
def storeQ : Store :=
  ⟨[bondRec delegateeX 0], [], [⟨⟨delegateeX, 100⟩, delegatorD, ⟨500⟩⟩], [], []⟩

/-- A store with X nominated and three unbond requests, enqueued at heights 10,
20 and 125. -/
def storeQ3 : Store :=
  ⟨[bondRec delegateeX 0], [],
   [⟨⟨delegateeX, 10⟩, delegatorD, ⟨5⟩⟩, ⟨⟨delegateeX, 20⟩, delegatorE, ⟨7⟩⟩,
    ⟨⟨delegateeX, 125⟩, delegatorD, ⟨9⟩⟩],
   [], []⟩

/-- A store with X nominated and two commission changes in the history queue,
enqueued at heights 100 and 29000. -/
def storeC : Store :=
  ⟨[bondRec delegateeX 0], [], [],
   [⟨⟨delegateeX, 100⟩, ⟨1 / 10⟩⟩, ⟨⟨delegateeX, 29000⟩, ⟨1 / 5⟩⟩], []⟩

/-! ## Auxiliary facts -/

theorem NewDecimal_one (a : Int) : NewDecimal a 1 = ⟨(a : ℚ) * 10⟩ := by
  simp [NewDecimal]

theorem NewDecimal_one_LTE_Zero (a : Int) : (NewDecimal a 1).LTE Zero = decide (a ≤ 0) := by
  have h : (a : ℚ) * 10 ≤ 0 ↔ a ≤ 0 := by
    constructor
    · intro h
      have : (a : ℚ) ≤ 0 := by linarith
      exact_mod_cast this
    · intro h
      have : (a : ℚ) ≤ 0 := by exact_mod_cast h
      linarith
  simp [NewDecimal_one, Decimal.LTE, Zero, h]

theorem ErrInternalError_IsErr (log : String) :
    (ErrInternalError.AppendLog log).IsErr = true := rfl

/-- Every successful path of `runTxBond`, in closed form: the delegatee-bond
collection is written back as read, and the minted tokens, ten times the coin
amount divided by the exchange rate, go to the first record of a one-record
collection or to a fresh one-record collection. -/
theorem runTxBond_success (g : Globals) (ctx : Context) (store : Store) (tx : TxBond)
    (dispatch : Deliver) (sender : Actor) (i : Nat) (bond : DelegateeBond) (coin1 : Ledger)
    (hden : tx.Amount.Denom = g.coinDenom) (hamt : 0 < tx.Amount.Amount)
    (hget : DelegateeBonds.Get store.delegateeBonds tx.Delegatee = some (i, bond))
    (hs : ctx.GetPermissions = [sender]) (hr : bond.ExchangeRate.val ≠ 0)
    (hd : dispatch ctx store.coin (NewSendOneTx sender bond.Account [tx.Amount]) =
      Except.ok coin1) :
    runTxBond g ctx store tx dispatch =
      Outcome.ret OK
        { store with
          coin := coin1
          delegatorBonds := kvSet store.delegatorBonds sender
            (match kvGet store.delegatorBonds sender with
             | some [b] =>
               [⟨b.Delegatee,
                 ⟨b.BondTokens.val + (tx.Amount.Amount : ℚ) * 10 / bond.ExchangeRate.val⟩⟩]
             | _ => [⟨tx.Delegatee, ⟨(tx.Amount.Amount : ℚ) * 10 / bond.ExchangeRate.val⟩⟩]) }
        [NewSendOneTx sender bond.Account [tx.Amount]] := by
  have hamt2 : ¬ tx.Amount.Amount ≤ 0 := not_le.mpr hamt
  have hl : (NewDecimal tx.Amount.Amount 1).LTE Zero = false := by
    rw [NewDecimal_one_LTE_Zero]; simp [hamt2]
  unfold runTxBond
  simp only [hl, getDelegateeBonds, hget, hs, hd, hden,
    getDelegatorBonds, setDelegateeBonds, setDelegatorBonds, Decimal.Div, hr]
  simp only [NewDecimal_one, Decimal.Plus, Zero]
  simp only [ne_eq, not_true_eq_false, if_false, decide_False, Bool.false_eq_true,
    List.length_singleton]
  cases hk : kvGet store.delegatorBonds sender with
  | none => simp [sliceLen]
  | some l =>
    match l with
    | [] => simp [sliceLen]
    | [b] => simp [sliceLen]
    | b :: c :: r => simp [sliceLen]

/-! ## runTxBond -/

/-- C1: evaluation of `runTxBond` on the scenario of the spec.  Delegatee X is
nominated with exchange rate 1, D signs alone, holds nothing, and bonds 500
atom with a transfer that succeeds.  The handler returns OK, and D then holds
5000 bond tokens for X, not 500: `NewDecimal(amount, 1)` is `amount × 10`. -/
theorem runTxBond_scenario_tenfold :
    runTxBond Globals.initial ctxD storeX txBondX500 dispatchOk =
      Outcome.ret OK
        { storeX with delegatorBonds := [(delegatorD, [⟨delegateeX, ⟨5000⟩⟩])] }
        [NewSendOneTx delegatorD Actor.zero [⟨"atom", 500⟩]] ∧
    holding storeX delegatorD delegateeX = ⟨0⟩ ∧
    holding { storeX with delegatorBonds := [(delegatorD, [⟨delegateeX, ⟨5000⟩⟩])] }
      delegatorD delegateeX = ⟨5000⟩ ∧
    (⟨5000⟩ : Decimal) ≠ ⟨0 + 500 / 1⟩ := by
  refine ⟨?_, ?_, ?_, ?_⟩
  · norm_num [runTxBond, Globals.initial, ctxD, storeX, txBondX500, dispatchOk, NewDecimal,
      Decimal.LTE, Zero, getDelegateeBonds, DelegateeBonds.Get, bondRec, delegateeX,
      Context.GetPermissions, getDelegatorBonds, kvGet, sliceLen, Decimal.Div, One,
      Decimal.Plus, setDelegateeBonds, setDelegatorBonds, kvSet, OK, NewSendOneTx]
  · simp [holding, storeX, kvGet, Zero]
  · simp [holding, kvGet, DelegatorBonds.Get]
  · norm_num

/-- C2: evaluation of `runTxBond` when the signer already holds bonds to other
delegatees.  With one bond (to Y, 100 tokens), Bond(X, 500) returns OK, adds
the minted tokens to the record of Y and creates no record for X.  With two
bonds (to Y and Z) the collection is replaced by a single new record for X, so
the bonds to Y and Z are gone. -/
theorem runTxBond_credits_first_record :
    (runTxBond Globals.initial ctxD storeDY txBondX500 dispatchOk =
      Outcome.ret OK
        { storeDY with delegatorBonds := [(delegatorD, [⟨delegateeY, ⟨5100⟩⟩])] }
        [NewSendOneTx delegatorD Actor.zero [⟨"atom", 500⟩]] ∧
     bondOf storeDY delegatorD delegateeY = some ⟨delegateeY, ⟨100⟩⟩ ∧
     bondOf { storeDY with delegatorBonds := [(delegatorD, [⟨delegateeY, ⟨5100⟩⟩])] }
       delegatorD delegateeY = some ⟨delegateeY, ⟨5100⟩⟩ ∧
     bondOf { storeDY with delegatorBonds := [(delegatorD, [⟨delegateeY, ⟨5100⟩⟩])] }
       delegatorD delegateeX = none) ∧
    (runTxBond Globals.initial ctxD storeDYZ txBondX500 dispatchOk =
      Outcome.ret OK
        { storeDYZ with delegatorBonds := [(delegatorD, [⟨delegateeX, ⟨5000⟩⟩])] }
        [NewSendOneTx delegatorD Actor.zero [⟨"atom", 500⟩]] ∧
     bondOf storeDYZ delegatorD delegateeY = some ⟨delegateeY, ⟨100⟩⟩ ∧
     bondOf { storeDYZ with delegatorBonds := [(delegatorD, [⟨delegateeX, ⟨5000⟩⟩])] }
       delegatorD delegateeY = none ∧
     bondOf { storeDYZ with delegatorBonds := [(delegatorD, [⟨delegateeX, ⟨5000⟩⟩])] }
       delegatorD delegateeZ = none) := by
  refine ⟨⟨?_, ?_, ?_, ?_⟩, ?_, ?_, ?_, ?_⟩
  · norm_num [runTxBond, Globals.initial, ctxD, storeDY, txBondX500, dispatchOk, NewDecimal,
      Decimal.LTE, Zero, getDelegateeBonds, DelegateeBonds.Get, bondRec, delegateeX,
      Context.GetPermissions, getDelegatorBonds, kvGet, sliceLen, Decimal.Div, One,
      Decimal.Plus, setDelegateeBonds, setDelegatorBonds, kvSet, OK, NewSendOneTx]
  · simp [bondOf, storeDY, kvGet, DelegatorBonds.Get]
  · simp [bondOf, kvGet, DelegatorBonds.Get]
  · simp [bondOf, kvGet, DelegatorBonds.Get, delegateeX, delegateeY]
  · norm_num [runTxBond, Globals.initial, ctxD, storeDYZ, txBondX500, dispatchOk, NewDecimal,
      Decimal.LTE, Zero, getDelegateeBonds, DelegateeBonds.Get, bondRec, delegateeX,
      Context.GetPermissions, getDelegatorBonds, kvGet, sliceLen, Decimal.Div, One,
      Decimal.Plus, setDelegateeBonds, setDelegatorBonds, kvSet, OK, NewSendOneTx]
  · simp [bondOf, storeDYZ, kvGet, DelegatorBonds.Get]
  · simp [bondOf, kvGet, DelegatorBonds.Get, delegateeX, delegateeY]
  · simp [bondOf, kvGet, DelegatorBonds.Get, delegateeX, delegateeZ]

/-- C3: `runTxBond` rejects without side effect.  When the denomination is not
the configured one, or the amount is not positive, or the delegatee is not in
the delegatee-bond collection, or the context does not carry exactly one
signer, the handler returns a failure result, dispatches nothing and leaves
the whole store as it was. -/
theorem runTxBond_rejects (g : Globals) (ctx : Context) (store : Store) (tx : TxBond)
    (dispatch : Deliver)
    (h : tx.Amount.Denom ≠ g.coinDenom ∨ ¬ (0 < tx.Amount.Amount) ∨
      DelegateeBonds.Get store.delegateeBonds tx.Delegatee = none ∨
      ctx.GetPermissions.length ≠ 1) :
    ∃ res, runTxBond g ctx store tx dispatch = Outcome.ret res store [] ∧ res.IsErr = true := by
  unfold runTxBond
  simp only [NewDecimal_one_LTE_Zero, getDelegateeBonds]
  by_cases h1 : tx.Amount.Denom ≠ g.coinDenom
  · rw [if_pos h1]
    exact ⟨_, rfl, ErrInternalError_IsErr _⟩
  · rw [if_neg h1]
    by_cases h2 : tx.Amount.Amount ≤ 0
    · simp only [h2, decide_True, if_true]
      exact ⟨_, rfl, ErrInternalError_IsErr _⟩
    · simp only [h2, decide_False, Bool.false_eq_true, if_false]
      cases h3 : DelegateeBonds.Get store.delegateeBonds tx.Delegatee with
      | none => exact ⟨_, rfl, ErrInternalError_IsErr _⟩
      | some r =>
        have h4 : ctx.GetPermissions.length ≠ 1 := by
          rcases h with h | h | h | h
          · exact absurd h h1
          · exact absurd (not_lt.mp h) h2
          · rw [h3] at h; cases h
          · exact h
        simp only [if_pos h4]
        exact ⟨_, rfl, ErrInternalError_IsErr _⟩

/-- Witness of C3: a wrong denomination, a zero amount, a delegatee that was
never nominated, and a context without signer. -/
theorem runTxBond_rejects_witness :
    (∃ res, runTxBond Globals.initial ctxD storeX ⟨delegateeX, ⟨"btc", 500⟩⟩ dispatchOk
      = Outcome.ret res storeX [] ∧ res.IsErr = true) ∧
    (∃ res, runTxBond Globals.initial ctxD storeX ⟨delegateeX, ⟨"atom", 0⟩⟩ dispatchOk
      = Outcome.ret res storeX [] ∧ res.IsErr = true) ∧
    (∃ res, runTxBond Globals.initial ctxD storeX ⟨delegateeY, ⟨"atom", 500⟩⟩ dispatchOk
      = Outcome.ret res storeX [] ∧ res.IsErr = true) ∧
    (∃ res, runTxBond Globals.initial ctxNone storeX txBondX500 dispatchOk
      = Outcome.ret res storeX [] ∧ res.IsErr = true) :=
  ⟨runTxBond_rejects Globals.initial ctxD storeX ⟨delegateeX, ⟨"btc", 500⟩⟩ dispatchOk
     (Or.inl (by decide)),
   runTxBond_rejects Globals.initial ctxD storeX ⟨delegateeX, ⟨"atom", 0⟩⟩ dispatchOk
     (Or.inr (Or.inl (by decide))),
   runTxBond_rejects Globals.initial ctxD storeX ⟨delegateeY, ⟨"atom", 500⟩⟩ dispatchOk
     (Or.inr (Or.inr (Or.inl (by
       simp [storeX, DelegateeBonds.Get, bondRec, delegateeX, delegateeY])))),
   runTxBond_rejects Globals.initial ctxNone storeX txBondX500 dispatchOk
     (Or.inr (Or.inr (Or.inr (by decide))))⟩

/-- C4: atomicity of `runTxBond` with respect to the coin transfer.  Whenever the
transfer from the signer to the delegatee's account is dispatched and returns
an error, the handler returns a failure result and the store it leaves is the
store it was given; and whenever a call leaves a delegatee-bond collection or
delegator-bond collections different from the ones it was given, exactly one
transfer was dispatched and it succeeded. -/
theorem runTxBond_atomic (g : Globals) (ctx : Context) (store : Store) (tx : TxBond)
    (dispatch : Deliver) :
    (∀ sender i bond err,
      tx.Amount.Denom = g.coinDenom → 0 < tx.Amount.Amount →
      DelegateeBonds.Get store.delegateeBonds tx.Delegatee = some (i, bond) →
      ctx.GetPermissions = [sender] →
      dispatch ctx store.coin (NewSendOneTx sender bond.Account [tx.Amount]) = Except.error err →
      runTxBond g ctx store tx dispatch =
          Outcome.ret (ErrInternalError.AppendLog err) store
            [NewSendOneTx sender bond.Account [tx.Amount]] ∧
        (ErrInternalError.AppendLog err).IsErr = true) ∧
    (∀ res store1 sent,
      runTxBond g ctx store tx dispatch = Outcome.ret res store1 sent →
      (store1.delegateeBonds ≠ store.delegateeBonds ∨
        store1.delegatorBonds ≠ store.delegatorBonds) →
      ∃ send coin1, sent = [send] ∧ dispatch ctx store.coin send = Except.ok coin1) := by
  constructor
  · intro sender i bond err hden hamt hget hs hd
    have hamt2 : ¬ tx.Amount.Amount ≤ 0 := not_le.mpr hamt
    refine ⟨?_, ErrInternalError_IsErr _⟩
    unfold runTxBond
    simp only [NewDecimal_one_LTE_Zero, getDelegateeBonds, hget, hs, hd, hden, hamt2]
    simp
  · intro res store1 sent hrun hchg
    unfold runTxBond at hrun
    simp only [NewDecimal_one_LTE_Zero, getDelegateeBonds, getDelegatorBonds,
      setDelegateeBonds, setDelegatorBonds] at hrun
    split at hrun
    · cases hrun; simp at hchg
    split at hrun
    · cases hrun; simp at hchg
    split at hrun
    · cases hrun; simp at hchg
    split at hrun
    · cases hrun; simp at hchg
    split at hrun
    · cases hrun
    split at hrun
    · cases hrun; simp at hchg
    rename_i coin1 hd
    split at hrun
    · cases hrun
    split at hrun
    · cases hrun
    cases hrun
    exact ⟨_, coin1, rfl, hd⟩

/-- Witness of C4 -/
theorem runTxBond_atomic_witness :
    runTxBond Globals.initial ctxD storeX txBondX500 dispatchFail =
      Outcome.ret (ErrInternalError.AppendLog "insufficient funds") storeX
        [NewSendOneTx delegatorD Actor.zero [⟨"atom", 500⟩]] ∧
    (ErrInternalError.AppendLog "insufficient funds").IsErr = true :=
  (runTxBond_atomic Globals.initial ctxD storeX txBondX500 dispatchFail).1
    delegatorD 0 (bondRec delegateeX 0) "insufficient funds"
    (by decide) (by decide) (by simp [storeX, DelegateeBonds.Get, bondRec, txBondX500])
    rfl rfl

/-- C5: evaluation of `runTxBond` on the scenario of the spec, looking at the
delegatee's total.  After a successful Nominate(X) by E on the empty store and
a successful Bond(X, 500) by D the store holds 5000 bond tokens of D for X,
while the `TotalBondTokens` of X is still 0: the handler writes the
delegatee-bond collection back as it read it. -/
theorem runTxBond_total_not_increased :
    runTxNominate ctxE storeEmpty ⟨delegateeX, ⟨"atom", 1000⟩, ⟨1 / 10⟩⟩ dispatchOk =
      Outcome.ret OK storeX [NewSendOneTx delegatorE Actor.zero [⟨"atom", 1000⟩]] ∧
    runTxBond Globals.initial ctxD storeX txBondX500 dispatchOk =
      Outcome.ret OK
        { storeX with delegatorBonds := [(delegatorD, [⟨delegateeX, ⟨5000⟩⟩])] }
        [NewSendOneTx delegatorD Actor.zero [⟨"atom", 500⟩]] ∧
    totalOf storeX delegateeX = some ⟨0⟩ ∧
    totalOf { storeX with delegatorBonds := [(delegatorD, [⟨delegateeX, ⟨5000⟩⟩])] }
      delegateeX = some ⟨0⟩ ∧
    heldFor { storeX with delegatorBonds := [(delegatorD, [⟨delegateeX, ⟨5000⟩⟩])] }
      delegateeX = 5000 := by
  refine ⟨?_, ?_, ?_, ?_, ?_⟩
  · simp [runTxNominate, ctxE, storeEmpty, storeX, bondRec, dispatchOk, Context.GetPermissions,
      getDelegateeBonds, setDelegateeBonds, Zero]
  · norm_num [runTxBond, Globals.initial, ctxD, storeX, txBondX500, dispatchOk, NewDecimal,
      Decimal.LTE, Zero, getDelegateeBonds, DelegateeBonds.Get, bondRec, delegateeX,
      Context.GetPermissions, getDelegatorBonds, kvGet, sliceLen, Decimal.Div, One,
      Decimal.Plus, setDelegateeBonds, setDelegatorBonds, kvSet, OK, NewSendOneTx]
  · simp [totalOf, storeX, DelegateeBonds.Get, bondRec]
  · simp [totalOf, storeX, DelegateeBonds.Get, bondRec]
  · simp [heldFor]

/-! ## runTxUnbond -/

/-- C6: `runTxUnbond` never returns OK.  With D as sole signer holding 50 bond
tokens for X, Unbond(X, 5 atom) at height 100 returns the internal error
"Missing signature", leaves the store as it was and pushes nothing on the
unbonding queue; with no signer the call panics on `senders[0]`; and for every
context, store, transaction and height the outcome is not OK. -/
theorem runTxUnbond_never_OK :
    runTxUnbond ctxD storeDXY ⟨delegateeX, ⟨"atom", 5⟩⟩ 100 =
      Outcome.ret (ErrInternalError.AppendLog "Missing signature") storeDXY [] ∧
    runTxUnbond ctxNone storeDXY ⟨delegateeX, ⟨"atom", 5⟩⟩ 100 =
      Outcome.panic "index out of range" ∧
    ∀ (ctx : Context) (store : Store) (tx : TxUnbond) (height : Nat),
      (runTxUnbond ctx store tx height).isOK = false := by
  refine ⟨?_, ?_, ?_⟩
  · norm_num [runTxUnbond, NewDecimal, Decimal.LTE, Zero, ctxD, Context.GetPermissions]
  · norm_num [runTxUnbond, NewDecimal, Decimal.LTE, Zero, ctxNone, Context.GetPermissions]
  · intro ctx store tx height
    unfold runTxUnbond
    simp only []
    split
    · rfl
    split
    · rfl
    · rename_i h1 h2
      have h3 : ctx.GetPermissions = [] := by
        cases h : ctx.GetPermissions with
        | nil => rfl
        | cons a l => rw [h] at h2; simp at h2
      simp [h3, Outcome.isOK]

/-- C7: evaluation of `runTxUnbond` on a request larger than the holding.  D,
the sole signer, holds 50 bond tokens for X and asks to unbond 100.  The
handler fails with the internal error "Missing signature", whose code is not
the insufficient-funds code; the store is left as it was. -/
theorem runTxUnbond_insufficient_reports_missing_signature :
    holding storeDXY delegatorD delegateeX = ⟨50⟩ ∧
    runTxUnbond ctxD storeDXY ⟨delegateeX, ⟨"atom", 100⟩⟩ 100 =
      Outcome.ret (ErrInternalError.AppendLog "Missing signature") storeDXY [] ∧
    (ErrInternalError.AppendLog "Missing signature").Code = CodeType.InternalError ∧
    (ErrInternalError.AppendLog "Missing signature").Code ≠ ErrBaseInsufficientFunds.Code := by
  refine ⟨?_, ?_, rfl, by decide⟩
  · simp [holding, storeDXY, kvGet, DelegatorBonds.Get]
  · norm_num [runTxUnbond, NewDecimal, Decimal.LTE, Zero, ctxD, Context.GetPermissions]

/-- C8: evaluation of `runTxUnbond` on a request for the whole holding.  D, the
sole signer, holds 50 bond tokens for X, which are all the bond tokens of X.
Unbond(X, 50 atom) and Unbond(X, 5 atom) (50 bond tokens under the handler's
`NewDecimal(amount, 1)`) both fail with "Missing signature" and leave the
store as it was: the lookup of X in D's bonds and in the delegatee-bond
collection still finds the records. -/
theorem runTxUnbond_whole_holding_not_pruned :
    runTxUnbond ctxD storeDXY ⟨delegateeX, ⟨"atom", 50⟩⟩ 100 =
      Outcome.ret (ErrInternalError.AppendLog "Missing signature") storeDXY [] ∧
    runTxUnbond ctxD storeDXY ⟨delegateeX, ⟨"atom", 5⟩⟩ 100 =
      Outcome.ret (ErrInternalError.AppendLog "Missing signature") storeDXY [] ∧
    bondOf storeDXY delegatorD delegateeX = some ⟨delegateeX, ⟨50⟩⟩ ∧
    DelegateeBonds.Get storeDXY.delegateeBonds delegateeX = some (0, bondRec delegateeX 50) := by
  refine ⟨?_, ?_, ?_, ?_⟩
  · norm_num [runTxUnbond, NewDecimal, Decimal.LTE, Zero, ctxD, Context.GetPermissions]
  · norm_num [runTxUnbond, NewDecimal, Decimal.LTE, Zero, ctxD, Context.GetPermissions]
  · simp [bondOf, storeDXY, kvGet, DelegatorBonds.Get]
  · simp [storeDXY, DelegateeBonds.Get, bondRec]

/-! ## runTxNominate -/

/-- C9: `runTxNominate`.  With a first signer whose transfer succeeds the handler
returns OK and the delegatee-bond collection becomes the previous one followed
by one record with the nominee, the transaction's commission, exchange rate 1
and total bond tokens 0; with no signer it fails, dispatches nothing and
leaves the store as it was; when the transfer fails it fails and leaves the
store as it was. -/
theorem runTxNominate_appends (ctx : Context) (store : Store) (tx : TxNominate)
    (dispatch : Deliver) :
    (∀ sender rest coin1,
      ctx.GetPermissions = sender :: rest →
      dispatch ctx store.coin (NewSendOneTx sender Actor.zero [tx.Amount]) = Except.ok coin1 →
      runTxNominate ctx store tx dispatch =
        Outcome.ret OK
          { store with
            coin := coin1
            delegateeBonds := store.delegateeBonds ++
              [{ Delegatee := tx.Nominee, Commission := tx.Commission, ExchangeRate := ⟨1⟩,
                 TotalBondTokens := ⟨0⟩, Account := Actor.zero }] }
          [NewSendOneTx sender Actor.zero [tx.Amount]]) ∧
    (ctx.GetPermissions = [] →
      runTxNominate ctx store tx dispatch =
          Outcome.ret (ErrInternalError.AppendLog "Missing signature") store [] ∧
        (ErrInternalError.AppendLog "Missing signature").IsErr = true) ∧
    (∀ sender rest err,
      ctx.GetPermissions = sender :: rest →
      dispatch ctx store.coin (NewSendOneTx sender Actor.zero [tx.Amount]) = Except.error err →
      runTxNominate ctx store tx dispatch =
          Outcome.ret (ErrInternalError.AppendLog err) store
            [NewSendOneTx sender Actor.zero [tx.Amount]] ∧
        (ErrInternalError.AppendLog err).IsErr = true) := by
  refine ⟨?_, ?_, ?_⟩
  · intro sender rest coin1 hs hd
    unfold runTxNominate
    simp only [hs, hd, getDelegateeBonds, setDelegateeBonds, One, Zero]
  · intro hs
    refine ⟨?_, ErrInternalError_IsErr _⟩
    unfold runTxNominate
    simp only [hs]
  · intro sender rest err hs hd
    refine ⟨?_, ErrInternalError_IsErr _⟩
    unfold runTxNominate
    simp only [hs, hd]

/-- Witness of C9 -/
theorem runTxNominate_appends_witness :
    runTxNominate ctxD storeEmpty ⟨delegateeX, ⟨"atom", 1000⟩, ⟨1 / 10⟩⟩ dispatchOk =
      Outcome.ret OK storeX [NewSendOneTx delegatorD Actor.zero [⟨"atom", 1000⟩]] ∧
    runTxNominate ctxNone storeX ⟨delegateeY, ⟨"atom", 1000⟩, ⟨1 / 10⟩⟩ dispatchOk =
      Outcome.ret (ErrInternalError.AppendLog "Missing signature") storeX [] ∧
    runTxNominate ctxD storeX ⟨delegateeY, ⟨"atom", 1000⟩, ⟨1 / 10⟩⟩ dispatchFail =
      Outcome.ret (ErrInternalError.AppendLog "insufficient funds") storeX
        [NewSendOneTx delegatorD Actor.zero [⟨"atom", 1000⟩]] :=
  ⟨(runTxNominate_appends ctxD storeEmpty ⟨delegateeX, ⟨"atom", 1000⟩, ⟨1 / 10⟩⟩ dispatchOk).1
      delegatorD [] [] rfl rfl,
   ((runTxNominate_appends ctxNone storeX ⟨delegateeY, ⟨"atom", 1000⟩, ⟨1 / 10⟩⟩ dispatchOk).2.1
      rfl).1,
   ((runTxNominate_appends ctxD storeX ⟨delegateeY, ⟨"atom", 1000⟩, ⟨1 / 10⟩⟩ dispatchFail).2.2
      delegatorD [] "insufficient funds" rfl rfl).1⟩

/-- C10: evaluation of two nominations.  D nominates X and then E nominates Y,
both transfers succeeding.  Each transfer is sent to the zero-value actor,
which is also the `Account` of each new record: the two DelegateeBonds have
the same escrow account. -/
theorem runTxNominate_shared_escrow :
    runTxNominate ctxD storeEmpty ⟨delegateeX, ⟨"atom", 1000⟩, ⟨1 / 10⟩⟩ dispatchOk =
      Outcome.ret OK storeX [NewSendOneTx delegatorD Actor.zero [⟨"atom", 1000⟩]] ∧
    runTxNominate ctxE storeX ⟨delegateeY, ⟨"atom", 1000⟩, ⟨1 / 10⟩⟩ dispatchOk =
      Outcome.ret OK
        { storeX with delegateeBonds := [bondRec delegateeX 0, bondRec delegateeY 0] }
        [NewSendOneTx delegatorE Actor.zero [⟨"atom", 1000⟩]] ∧
    delegateeX ≠ delegateeY ∧
    (bondRec delegateeX 0).Account = Actor.zero ∧
    (bondRec delegateeY 0).Account = (bondRec delegateeX 0).Account := by
  refine ⟨?_, ?_, by decide, rfl, rfl⟩
  · simp [runTxNominate, ctxD, storeEmpty, storeX, bondRec, dispatchOk, Context.GetPermissions,
      getDelegateeBonds, setDelegateeBonds, Zero]
  · simp [runTxNominate, ctxE, storeX, bondRec, dispatchOk, Context.GetPermissions,
      getDelegateeBonds, setDelegateeBonds, Zero]

/-! ## runTxModComm -/

theorem DelegateeBonds_Get_some (bs : List DelegateeBond) (d : Actor) (i : Nat)
    (b : DelegateeBond) (h : DelegateeBonds.Get bs d = some (i, b)) :
    bs[i]? = some b ∧ b.Delegatee = d := by
  induction bs generalizing i with
  | nil => simp [DelegateeBonds.Get] at h
  | cons a l ih =>
    unfold DelegateeBonds.Get at h
    by_cases ha : a.Delegatee = d
    · simp only [ha, if_true, Option.some.injEq, Prod.mk.injEq] at h
      obtain ⟨h1, h2⟩ := h
      subst h1 h2
      exact ⟨by simp, ha⟩
    · simp only [ha, if_false] at h
      cases hr : DelegateeBonds.Get l d with
      | none => rw [hr] at h; cases h
      | some r =>
        obtain ⟨j, c⟩ := r
        rw [hr] at h
        simp only [Option.some.injEq, Prod.mk.injEq] at h
        obtain ⟨h1, h2⟩ := h
        subst h1 h2
        have := ih j hr
        exact ⟨by simpa using this.1, this.2⟩

/-- C11: `runTxModComm`.  On a delegatee that `Get` does not find the handler
fails, dispatches nothing and leaves the store (ledger and queues) as it was.
On a delegatee found at index `i` it returns OK; the collection afterwards
differs from the one before only at index `i`, where the record is the old one
with `Commission` set to the transaction's commission; and the commission
queue is the old one followed by one element with the delegatee, the height
and the commission.  Nothing else of the store changes, nothing is dispatched. -/
theorem runTxModComm_sets_commission (ctx : Context) (store : Store) (tx : TxModComm)
    (height : Nat) :
    (DelegateeBonds.Get store.delegateeBonds tx.Delegatee = none →
      ∃ res, runTxModComm ctx store tx height = Outcome.ret res store [] ∧ res.IsErr = true) ∧
    (∀ i b, DelegateeBonds.Get store.delegateeBonds tx.Delegatee = some (i, b) →
      store.delegateeBonds[i]? = some b ∧ b.Delegatee = tx.Delegatee ∧
      runTxModComm ctx store tx height =
        Outcome.ret OK
          { store with
            delegateeBonds :=
              store.delegateeBonds.set i
                { Delegatee := b.Delegatee, Commission := tx.Commission,
                  ExchangeRate := b.ExchangeRate, TotalBondTokens := b.TotalBondTokens,
                  Account := b.Account }
            queueComm := store.queueComm ++ [⟨⟨tx.Delegatee, height⟩, tx.Commission⟩] }
          [] ∧
      (∀ j, j ≠ i →
        (store.delegateeBonds.set i
          { Delegatee := b.Delegatee, Commission := tx.Commission,
            ExchangeRate := b.ExchangeRate, TotalBondTokens := b.TotalBondTokens,
            Account := b.Account })[j]? = store.delegateeBonds[j]?)) := by
  constructor
  · intro h
    refine ⟨_, ?_, ErrInternalError_IsErr "Delegatee does not exist for that address"⟩
    unfold runTxModComm
    simp only [getDelegateeBonds, h]
  · intro i b h
    obtain ⟨h1, h2⟩ := DelegateeBonds_Get_some _ _ _ _ h
    refine ⟨h1, h2, ?_, ?_⟩
    · unfold runTxModComm
      simp only [getDelegateeBonds, h, h1, setDelegateeBonds]
    · intro j hj
      exact List.getElem?_set_ne (Ne.symm hj)

/-- Witness of C11: on the store with X nominated, ModComm(X, 0.2) at height 100
succeeds and ModComm(Y, 0.2) fails. -/
theorem runTxModComm_sets_commission_witness :
    runTxModComm ctxD storeX ⟨delegateeX, ⟨1 / 5⟩⟩ 100 =
      Outcome.ret OK
        { storeX with
          delegateeBonds :=
            [{ Delegatee := delegateeX, Commission := ⟨1 / 5⟩, ExchangeRate := One,
               TotalBondTokens := ⟨0⟩, Account := Actor.zero }]
          queueComm := [⟨⟨delegateeX, 100⟩, ⟨1 / 5⟩⟩] }
        [] ∧
    ∃ res, runTxModComm ctxD storeX ⟨delegateeY, ⟨1 / 5⟩⟩ 100 = Outcome.ret res storeX [] ∧
      res.IsErr = true :=
  ⟨((runTxModComm_sets_commission ctxD storeX ⟨delegateeX, ⟨1 / 5⟩⟩ 100).2 0
      (bondRec delegateeX 0) (by simp [storeX, DelegateeBonds.Get, bondRec])).2.2.1,
   (runTxModComm_sets_commission ctxD storeX ⟨delegateeY, ⟨1 / 5⟩⟩ 100).1
      (by simp [storeX, DelegateeBonds.Get, bondRec, delegateeX, delegateeY])⟩

/-! ## The per-block processors -/

theorem unbondLoop_zero (g : Globals) (ext : Externals) (sendCoins : SendCoins)
    (height fuel : Nat) (store : Store) (sent : List CoinTx) :
    unbondLoop g ext sendCoins height fuel QueueElemUnbond.zero store sent =
      some (ProcOutcome.ret none store sent) := by
  cases fuel <;> simp [unbondLoop, QueueElemUnbond.zero, Actor.zero]

theorem commLoop_zero (g : Globals) (ext : Externals) (height fuel : Nat) (store : Store) :
    commLoop g ext height fuel QueueElemModComm.zero store =
      some (ProcOutcome.ret none store []) := by
  cases fuel <;> simp [commLoop, QueueElemModComm.zero, Actor.zero]

/-- The unbonding processor in closed form: whatever the queue holds, the call
ends after the first `ReadBinaryBytes`, with the store as it was and nothing
requested. -/
theorem processQueueUnbondAbstracted_eq (g : Globals) (ext : Externals)
    (sendCoins : SendCoins) (store : Store) (height fuel : Nat) :
    processQueueUnbondAbstracted g ext sendCoins store height fuel =
      some (match ext.readUnbond (queuePeek store.queueUnbond) with
        | ReadResult.panic msg => ProcOutcome.panic msg store []
        | ReadResult.err e => ProcOutcome.ret (some (GoError.text e)) store []
        | ReadResult.ok => ProcOutcome.ret none store []) := by
  cases h : ext.readUnbond (queuePeek store.queueUnbond) <;>
    simp [processQueueUnbondAbstracted, h, unbondLoop_zero]

/-- The commission-history processor in closed form. -/
theorem processQueueCommHistory_eq (g : Globals) (ext : Externals) (store : Store)
    (height fuel : Nat) :
    processQueueCommHistory g ext store height fuel =
      some (match ext.readModComm (queuePeek store.queueComm) with
        | ReadResult.panic msg => ProcOutcome.panic msg store []
        | ReadResult.err e => ProcOutcome.ret (some (GoError.text e)) store []
        | ReadResult.ok => ProcOutcome.ret none store []) := by
  cases h : ext.readModComm (queuePeek store.queueComm) <;>
    simp [processQueueCommHistory, h, commLoop_zero]

theorem processQueueUnbondAbstracted_inert (g : Globals) (ext : Externals)
    (sendCoins : SendCoins) (store : Store) (height fuel : Nat) :
    ∃ o, processQueueUnbondAbstracted g ext sendCoins store height fuel = some o ∧
      o.sent = [] ∧ o.store = store := by
  rw [processQueueUnbondAbstracted_eq]
  cases h : ext.readUnbond (queuePeek store.queueUnbond) <;>
    exact ⟨_, rfl, rfl, rfl⟩

theorem processQueueCommHistory_inert (g : Globals) (ext : Externals) (store : Store)
    (height fuel : Nat) :
    ∃ o, processQueueCommHistory g ext store height fuel = some o ∧
      o.sent = [] ∧ o.store = store := by
  rw [processQueueCommHistory_eq]
  cases h : ext.readModComm (queuePeek store.queueComm) <;>
    exact ⟨_, rfl, rfl, rfl⟩

/-- C12: delay enforcement.  When the front element of the unbonding queue was
enqueued at height `h` and `h ≤ h' ≤ h + periodUnbonding`, the age test of
line 420, `height - HeightAtInit > periodUnbonding` in uint64 arithmetic, is
false on that element, and a run of `processQueueUnbondAbstracted` at height
`h'` ends (for every amount of fuel and every answer of the decoder), requests
no transfer and leaves the store, queue and ledger included, as it was. -/
theorem processQueueUnbondAbstracted_delay (g : Globals) (ext : Externals)
    (sendCoins : SendCoins) (store : Store) (h' fuel : Nat) (e : QueueElemUnbond)
    (rest : List QueueElemUnbond) (hq : store.queueUnbond = e :: rest)
    (h1 : e.toQueueElem.HeightAtInit ≤ h')
    (h2 : h' ≤ e.toQueueElem.HeightAtInit + g.periodUnbonding) :
    ¬ (subU64 h' e.toQueueElem.HeightAtInit > g.periodUnbonding) ∧
    ∃ o, processQueueUnbondAbstracted g ext sendCoins store h' fuel = some o ∧
      o.sent = [] ∧ o.store = store ∧ o.store.queueUnbond = e :: rest := by
  constructor
  · unfold subU64
    omega
  · obtain ⟨o, ho, hs, hst⟩ := processQueueUnbondAbstracted_inert g ext sendCoins store h' fuel
    exact ⟨o, ho, hs, hst, by rw [hst, hq]⟩

/-- Witness of C12: the request enqueued at height 100, processed at height 130
with an unbonding period of 30. -/
theorem processQueueUnbondAbstracted_delay_witness :
    ¬ (subU64 130 100 > Globals.initial.periodUnbonding) ∧
    ∃ o, processQueueUnbondAbstracted Globals.initial extNil sendOk storeQ 130 1 = some o ∧
      o.sent = [] ∧ o.store = storeQ ∧
      o.store.queueUnbond = ⟨⟨delegateeX, 100⟩, delegatorD, ⟨500⟩⟩ :: [] :=
  processQueueUnbondAbstracted_delay Globals.initial extNil sendOk storeQ 130 1
    ⟨⟨delegateeX, 100⟩, delegatorD, ⟨500⟩⟩ [] rfl (by decide) (by decide)

/-- C13: evaluation of `processQueueUnbondAbstracted` on a mature front element.
X is nominated, the queue holds one request of D (500 bond tokens for X)
enqueued at height 100, the period is 30 and the height is 131, so
`height - HeightAtInit > periodUnbonding`.  Whatever the decoder answers, the
run requests no transfer and leaves the element in the queue; with a decoder
that returns nil the processor returns nil. -/
theorem processQueueUnbondAbstracted_mature_not_paid :
    subU64 131 100 > Globals.initial.periodUnbonding ∧
    DelegateeBonds.Get storeQ.delegateeBonds delegateeX = some (0, bondRec delegateeX 0) ∧
    processQueueUnbondAbstracted Globals.initial extNil sendOk storeQ 131 1 =
      some (ProcOutcome.ret none storeQ []) ∧
    storeQ.queueUnbond = [⟨⟨delegateeX, 100⟩, delegatorD, ⟨500⟩⟩] ∧
    ∀ (ext : Externals) (sendCoins : SendCoins) (fuel : Nat),
      ∃ o, processQueueUnbondAbstracted Globals.initial ext sendCoins storeQ 131 fuel = some o ∧
        o.sent = [] ∧ o.store = storeQ := by
  refine ⟨by decide, ?_, ?_, rfl, ?_⟩
  · simp [storeQ, DelegateeBonds.Get, bondRec]
  · rw [processQueueUnbondAbstracted_eq]; rfl
  · intro ext sendCoins fuel
    exact processQueueUnbondAbstracted_inert _ ext sendCoins storeQ 131 fuel

/-- C14: evaluation of `processQueueUnbondAbstracted` on a queue with a mature
prefix.  The queue holds requests enqueued at heights 10, 20 and 125; at
height 131 with period 30 the first two are mature and the third is not.
The run requests no transfer at all and leaves all three elements in the
queue. -/
theorem processQueueUnbondAbstracted_prefix_not_paid :
    subU64 131 10 > Globals.initial.periodUnbonding ∧
    subU64 131 20 > Globals.initial.periodUnbonding ∧
    ¬ subU64 131 125 > Globals.initial.periodUnbonding ∧
    processQueueUnbondAbstracted Globals.initial extNil sendOk storeQ3 131 3 =
      some (ProcOutcome.ret none storeQ3 []) ∧
    storeQ3.queueUnbond.length = 3 ∧
    ∀ (ext : Externals) (sendCoins : SendCoins) (fuel : Nat),
      ∃ o, processQueueUnbondAbstracted Globals.initial ext sendCoins storeQ3 131 fuel = some o ∧
        o.sent = [] ∧ o.store = storeQ3 := by
  refine ⟨by decide, by decide, by decide, ?_, rfl, ?_⟩
  · rw [processQueueUnbondAbstracted_eq]; rfl
  · intro ext sendCoins fuel
    exact processQueueUnbondAbstracted_inert _ ext sendCoins storeQ3 131 fuel

/-- C15: evaluation of `processQueueCommHistory` on a queue whose front element
is older than the history window.  The queue holds changes enqueued at
heights 100 and 29000, the window is 28800 and the height is 30000, so the
first element has age 29900.  The run removes nothing: both elements stay in
the queue. -/
theorem processQueueCommHistory_prunes_nothing :
    subU64 30000 100 > Globals.initial.periodCommHistory ∧
    ¬ subU64 30000 29000 > Globals.initial.periodCommHistory ∧
    processQueueCommHistory Globals.initial extNil storeC 30000 2 =
      some (ProcOutcome.ret none storeC []) ∧
    storeC.queueComm = [⟨⟨delegateeX, 100⟩, ⟨1 / 10⟩⟩, ⟨⟨delegateeX, 29000⟩, ⟨1 / 5⟩⟩] ∧
    ∀ (ext : Externals) (fuel : Nat),
      ∃ o, processQueueCommHistory Globals.initial ext storeC 30000 fuel = some o ∧
        o.sent = [] ∧ o.store = storeC := by
  refine ⟨by decide, by decide, ?_, rfl, ?_⟩
  · rw [processQueueCommHistory_eq]; rfl
  · intro ext fuel
    exact processQueueCommHistory_inert _ ext storeC 30000 fuel

theorem rewardLoop_ok (creditAcc : CreditAcc) (accounts : List Actor) (store : Store)
    (sent : List CoinTx) (store1 : Store) (sent1 : List CoinTx)
    (h : rewardLoop creditAcc accounts store sent = ProcOutcome.ret none store1 sent1) :
    sent1 = sent ++ accounts.map (fun a => NewCreditTx a [⟨"atom", 10⟩]) ∧
      store1.delegateeBonds = store.delegateeBonds ∧
      store1.delegatorBonds = store.delegatorBonds ∧
      store1.queueUnbond = store.queueUnbond ∧ store1.queueComm = store.queueComm := by
  induction accounts generalizing store sent with
  | nil =>
    simp only [rewardLoop, ProcOutcome.ret.injEq, true_and] at h
    obtain ⟨h1, h2⟩ := h
    subst h1 h2
    simp
  | cons a l ih =>
    unfold rewardLoop at h
    simp only [] at h
    split at h
    · cases h
    · obtain ⟨h1, h2, h3, h4, h5⟩ := ih _ _ h
      refine ⟨?_, h2, h3, h4, h5⟩
      rw [h1]; simp

/-- A successful run of the reward processor requests one credit of 10 atom per
delegatee of the collection, to the account of that delegatee, and leaves the
stake part of the store as it was. -/
theorem processValidatorRewardsAbstration_ok (creditAcc : CreditAcc) (store : Store)
    (height : Nat) (store1 : Store) (sent1 : List CoinTx)
    (h : processValidatorRewardsAbstration creditAcc store height =
      ProcOutcome.ret none store1 sent1) :
    sent1 = store.delegateeBonds.map (fun b => NewCreditTx b.Account [⟨"atom", 10⟩]) ∧
      store1.delegateeBonds = store.delegateeBonds ∧
      store1.delegatorBonds = store.delegatorBonds ∧
      store1.queueUnbond = store.queueUnbond ∧ store1.queueComm = store.queueComm := by
  unfold processValidatorRewardsAbstration at h
  simp only [getDelegateeBonds, ValidatorsActors] at h
  obtain ⟨h1, h2⟩ := rewardLoop_ok _ _ _ _ _ _ h
  refine ⟨?_, h2⟩
  rw [h1]; simp [List.map_map, Function.comp]

/-- C16: evaluation of the reward processor run twice at one height.  On the
store with X nominated, with credits that succeed and are booked, a first run
at height 100 returns nil after one credit; a second run at the same height on
the resulting store requests the credit again and changes the store again:
the processor takes `height` and never reads it. -/
theorem processValidatorRewards_not_idempotent :
    processValidatorRewardsAbstration creditBook storeX 100 =
      ProcOutcome.ret none
        { storeX with coin := [(Actor.zero, [⟨"atom", 10⟩])] }
        [NewCreditTx Actor.zero [⟨"atom", 10⟩]] ∧
    processValidatorRewardsAbstration creditBook
        { storeX with coin := [(Actor.zero, [⟨"atom", 10⟩])] } 100 =
      ProcOutcome.ret none
        { storeX with coin := [(Actor.zero, [⟨"atom", 10⟩]), (Actor.zero, [⟨"atom", 10⟩])] }
        [NewCreditTx Actor.zero [⟨"atom", 10⟩]] ∧
    [NewCreditTx Actor.zero [⟨"atom", 10⟩]] ≠ ([] : List CoinTx) ∧
    ({ storeX with coin := [(Actor.zero, [⟨"atom", 10⟩]), (Actor.zero, [⟨"atom", 10⟩])] } : Store)
      ≠ { storeX with coin := [(Actor.zero, [⟨"atom", 10⟩])] } := by
  refine ⟨?_, ?_, by simp, ?_⟩
  · simp [processValidatorRewardsAbstration, getDelegateeBonds, ValidatorsActors, storeX,
      bondRec, rewardLoop, creditBook]
  · simp [processValidatorRewardsAbstration, getDelegateeBonds, ValidatorsActors, storeX,
      bondRec, rewardLoop, creditBook]
  · simp [storeX]

/-- C17: evaluation of the reward processor on two delegatees with different
stake.  X has 50 bond tokens outstanding and Y has 70; one run requests one
credit for each, and both credits are the constant 10 atom. -/
theorem processValidatorRewards_flat_amount :
    totalOf storeDXY delegateeX = some ⟨50⟩ ∧
    totalOf storeDXY delegateeY = some ⟨70⟩ ∧
    processValidatorRewardsAbstration creditBook storeDXY 100 =
      ProcOutcome.ret none
        { storeDXY with coin := [(Actor.zero, [⟨"atom", 10⟩]), (Actor.zero, [⟨"atom", 10⟩])] }
        [NewCreditTx Actor.zero [⟨"atom", 10⟩], NewCreditTx Actor.zero [⟨"atom", 10⟩]] := by
  refine ⟨?_, ?_, ?_⟩
  · simp [totalOf, storeDXY, DelegateeBonds.Get, bondRec]
  · simp [totalOf, storeDXY, DelegateeBonds.Get, bondRec, delegateeX, delegateeY]
  · simp [processValidatorRewardsAbstration, getDelegateeBonds, ValidatorsActors, storeDXY,
      bondRec, rewardLoop, creditBook]

/-! ## DeliverTx and InitState -/

/-- C18: evaluation of `DeliverTx` on a Bond with a wrong denomination.  X is
nominated, D signs Bond(X, 500 btc), transactions pass `ValidateBasic` and
the decoder returns nil.  `runTxBond` rejects the transaction with the log
"Invalid coin denomination", yet `DeliverTx` returns a nil error with a
result that carries only the log, and the reward processor that ran before
the handler has dispatched a credit that changed the store.  The same
happens without any delegatee, apart from the credit.  With a decoder that
panics on the struct target, `DeliverTx` panics before the handler runs. -/
theorem DeliverTx_rejection_not_surfaced :
    runTxBond Globals.initial ctxD storeX ⟨delegateeX, ⟨"btc", 500⟩⟩ dispatchBook =
      Outcome.ret (ErrInternalError.AppendLog "Invalid coin denomination") storeX [] ∧
    DeliverTx Globals.initial extNil ctxD storeX (Tx.bond ⟨delegateeX, ⟨"btc", 500⟩⟩)
        dispatchBook 1 =
      some (DeliverOutcome.ret
        ⟨(ErrInternalError.AppendLog "Invalid coin denomination").Log, []⟩ none
        { storeX with coin := [(Actor.zero, [⟨"atom", 10⟩])] }
        [NewCreditTx Actor.zero [⟨"atom", 10⟩]]) ∧
    ({ storeX with coin := [(Actor.zero, [⟨"atom", 10⟩])] } : Store) ≠ storeX ∧
    DeliverTx Globals.initial extNil ctxD storeEmpty (Tx.bond ⟨delegateeX, ⟨"btc", 500⟩⟩)
        dispatchBook 1 =
      some (DeliverOutcome.ret
        ⟨(ErrInternalError.AppendLog "Invalid coin denomination").Log, []⟩ none
        storeEmpty []) ∧
    DeliverTx Globals.initial extPanic ctxD storeX (Tx.bond ⟨delegateeX, ⟨"btc", 500⟩⟩)
        dispatchBook 1 =
      some (DeliverOutcome.panic "ReadBinaryPtr expects o to be a pointer") := by
  refine ⟨?_, ?_, ?_, ?_, ?_⟩
  · simp [runTxBond, Globals.initial]
  · simp [DeliverTx, checkTx, extNil, processQueueUnbond, processQueueUnbondAbstracted_eq,
      processQueueCommHistory_eq, processValidatorRewards, processValidatorRewardsAbstration,
      getDelegateeBonds, ValidatorsActors, storeX, bondRec, rewardLoop, dispatchBook,
      NewCreditTx, runTxBond, Globals.initial]
  · simp [storeX]
  · simp [DeliverTx, checkTx, extNil, processQueueUnbond, processQueueUnbondAbstracted_eq,
      processQueueCommHistory_eq, processValidatorRewards, processValidatorRewardsAbstration,
      getDelegateeBonds, ValidatorsActors, storeEmpty, rewardLoop,
      runTxBond, Globals.initial]
  · simp [DeliverTx, checkTx, extPanic, processQueueUnbond, processQueueUnbondAbstracted_eq]

/-- C19: evaluation of `InitState` on recognized keys with well-formed values.
The parameter is set, but the returned error is the unknown-key error; for
every module, key and value the returned error is not nil.  A period that is
not an integer leaves the parameters as they were, and a key that is not
recognized gives the unknown-key error. -/
theorem InitState_recognized_key_unknown_key_error :
    InitState Globals.initial "stake" "unbond_period" "45" =
      ({ Globals.initial with periodUnbonding := 45 },
        some (InitError.unknownKey "unbond_period")) ∧
    InitState Globals.initial "stake" "modcomm_period" "100" =
      ({ Globals.initial with periodCommHistory := 100 },
        some (InitError.unknownKey "modcomm_period")) ∧
    InitState Globals.initial "stake" "bond_coin" "photon" =
      ({ Globals.initial with coinDenom := "photon" },
        some (InitError.unknownKey "bond_coin")) ∧
    (InitState Globals.initial "stake" "unbond_period" "4x").1 = Globals.initial ∧
    InitState Globals.initial "stake" "colour" "red" =
      (Globals.initial, some (InitError.unknownKey "colour")) ∧
    ∀ (g : Globals) (module key value : String),
      (InitState g module key value).2.isSome = true := by
  refine ⟨by decide, by decide, by decide, by decide, by decide, ?_⟩
  intro g module key value
  unfold InitState
  split
  · rfl
  · simp only []
    split <;> rfl

/-- C20: evaluation of `runTxUnbond` without signer.  For every store,
delegatee, denomination, positive amount and height, a context with zero
signers makes the handler panic on `senders[0]`: no result is returned.  This
includes the empty store, where the delegator has no bonds and the delegatee
is not in the collection. -/
theorem runTxUnbond_zero_signers_panics :
    runTxUnbond ctxNone storeEmpty ⟨delegateeX, ⟨"atom", 5⟩⟩ 100 =
      Outcome.panic "index out of range" ∧
    ∀ (store : Store) (delegatee : Actor) (denom : String) (n height : Nat),
      runTxUnbond ctxNone store ⟨delegatee, ⟨denom, (n : Int) + 1⟩⟩ height =
        Outcome.panic "index out of range" := by
  have key : ∀ (store : Store) (delegatee : Actor) (denom : String) (n height : Nat),
      runTxUnbond ctxNone store ⟨delegatee, ⟨denom, (n : Int) + 1⟩⟩ height =
        Outcome.panic "index out of range" := by
    intro store delegatee denom n height
    have h : ¬ ((n : Int) + 1 ≤ 0) := by omega
    unfold runTxUnbond
    simp [NewDecimal_one_LTE_Zero, h, ctxNone, Context.GetPermissions]
  exact ⟨key storeEmpty delegateeX "atom" 4 100, key⟩

end Stake
